import Mathlib

/-!
Verification development for the Movie-Review API backend
(`src/reviews/views.py`), a Django REST Framework (DRF) service.

The handlers in `views.py` are embedded as pure Lean functions over an
explicit database state.  Framework behaviour that the handlers rely on
(DRF permission checks, `PageNumberPagination`, Django's `Paginator`,
Python string truthiness and `int()` parsing, ORM `get`/`filter`) is
embedded following the framework's documented semantics.  Components of
the repository that are not present under `src/` (the serializers, the
auth module's token issuance) are modelled from the specification and
carry a `Modelled from the spec:` doc comment.
-/

namespace MovieApi

/-- A row of the `Movie` table (`models.Movie`): id, title, genre. -/
structure Movie where
  id : Nat
  title : String
  genre : String
  deriving Repr, DecidableEq

/-- A row of Django's auth `User` table, with the fields the views touch:
identity, credentials, profile fields and the admin (`is_staff`) flag. -/
structure User where
  id : Nat
  username : String
  email : String
  password : String
  first_name : String
  last_name : String
  is_staff : Bool
  deriving Repr, DecidableEq

/-- A row of the `Review` table (`models.Review`): belongs to one movie and
one user, carries an integer rating, free-text body and creation stamp. -/
structure Review where
  id : Nat
  movieId : Nat
  userId : Nat
  rating : Int
  body : String
  createdAt : Nat
  deriving Repr, DecidableEq

/-- The relational store the views read and write. -/
structure DB where
  movies : List Movie
  reviews : List Review
  deriving Repr, DecidableEq

/-! ### Python semantics used by the handlers -/

/-- Digits-only numeral parse; `none` on the empty string or a non-digit. -/
def parseDigits (cs : List Char) : Option Nat :=
  if cs.isEmpty then none
  else cs.foldl
    (fun acc c =>
      match acc with
      | none => none
      | some n => if c.isDigit then some (n * 10 + (c.toNat - '0'.toNat)) else none)
    (some 0)

/-- Strip leading and trailing whitespace from a character list. -/
def stripChars (cs : List Char) : List Char :=
  ((cs.dropWhile Char.isWhitespace).reverse.dropWhile Char.isWhitespace).reverse

/-- Python's `int(s)` on a string: surrounding whitespace is stripped, an
optional sign precedes the digits; anything else raises `ValueError`
(modelled as `none`).  (Underscore digit separators are omitted.) -/
def pyInt? (s : String) : Option Int :=
  match stripChars s.toList with
  | [] => none
  | '-' :: rest => (parseDigits rest).map (fun n => -(n : Int))
  | '+' :: rest => (parseDigits rest).map (fun n => (n : Int))
  | cs => (parseDigits cs).map (fun n => (n : Int))

/-- Python truthiness of an optional string (`if s:`): absent and the empty
string are falsy, every other string is truthy. -/
def truthy : Option String → Bool
  | none => false
  | some s => s != ""

/-- `needle` occurs as a contiguous run inside `hay`. -/
def listContains (hay needle : List Char) : Bool :=
  (List.range (hay.length + 1)).any (fun i => needle.isPrefixOf (hay.drop i))

/-- ASCII lower-casing of one character. -/
def charLower (c : Char) : Char :=
  if 'A' ≤ c ∧ c ≤ 'Z' then Char.ofNat (c.toNat + 32) else c

/-- Django's `__icontains` lookup: case-insensitive substring containment. -/
def icontains (hay needle : String) : Bool :=
  listContains (hay.toList.map charLower) (needle.toList.map charLower)

/-- Title of the movie a review belongs to (the `movie__title` join).  The
spec's referential-integrity invariant guarantees the movie exists; a
dangling reference defaults to the empty title. -/
def movieTitleOf (db : DB) (r : Review) : String :=
  ((db.movies.find? (fun m => m.id == r.movieId)).map Movie.title).getD ""

/-! ### HTTP outcomes

A handler either produces an HTTP response or lets an exception escape
(`exn` records the exception's name: Django turns an uncaught exception
into a 500 server error, not a well-formed API response). -/

/-- Response bodies the views produce. -/
inductive Body where
  | error (msg : String)
  | message (msg : String)
  | envelope (count : Nat) (results : List Review)
  | review (r : Review)
  | movie (m : Movie)
  | movieList (l : List Movie)
  | tokens (refresh access : String)
  | empty
  deriving Repr, DecidableEq

/-- Outcome of handling a request. -/
inductive Outcome where
  | resp (status : Nat) (body : Body)
  | exn (name : String)
  deriving Repr, DecidableEq

/-! ### Pagination (`ReviewPagination`, views.py lines 22–25)

`ReviewPagination` subclasses DRF's `PageNumberPagination` with
`page_size = 10`, `page_size_query_param = 'page_size'`,
`max_page_size = 100`.  The embedding follows DRF's
`PageNumberPagination.paginate_queryset` and Django's `Paginator`. -/

/-- DRF `pagination._positive_int` with `strict=True` and a cutoff:
parse an integer, reject values `≤ 0`, cap at the cutoff. -/
def positiveIntStrictCutoff (s : String) (cutoff : Nat) : Option Nat :=
  match pyInt? s with
  | some n => if n ≤ 0 then none else some (min n.toNat cutoff)
  | none => none

/-- DRF `get_page_size`: an absent or unparsable `page_size` parameter falls
back to the default page size 10; a parsed value is capped at 100. -/
def getPageSize (pageSize? : Option String) : Nat :=
  match pageSize? with
  | none => 10
  | some s => (positiveIntStrictCutoff s 100).getD 10

/-- Django `Paginator.num_pages` (no orphans, `allow_empty_first_page`):
`ceil(max(1, count) / per_page)`. -/
def numPagesFor (count pageSize : Nat) : Nat :=
  (max 1 count + pageSize - 1) / pageSize

/-- Result of `paginate_queryset`: a page of results with the total count,
or DRF's `NotFound` raised on an invalid page number. -/
inductive Paginated where
  | envelope (count : Nat) (results : List Review)
  | notFound
  deriving Repr, DecidableEq

/-- Django `Paginator.validate_number` driven by DRF's page parameter: an
absent parameter is page 1, `'last'` is the last page; a non-integer, a
number `< 1`, or a number beyond the last page raises `InvalidPage`
(modelled as `none`), which DRF converts to `NotFound`. -/
def pageNumber? (page? : Option String) (numPages : Nat) : Option Nat :=
  match page? with
  | none => some 1
  | some s =>
    if s == "last" then some numPages
    else
      match pyInt? s with
      | none => none
      | some n =>
        if n < 1 then none
        else if numPages < n.toNat then none
        else some n.toNat

/-- DRF `PageNumberPagination.paginate_queryset` under `ReviewPagination`'s
configuration: resolve the page size, validate the page number, then
slice `object_list[(number-1)*size : number*size]`. -/
def ReviewPagination.paginate_queryset (reviews : List Review)
    (page? pageSize? : Option String) : Paginated :=
  match pageNumber? page? (numPagesFor reviews.length (getPageSize pageSize?)) with
  | none => Paginated.notFound
  | some number =>
      Paginated.envelope reviews.length
        ((reviews.drop ((number - 1) * getPageSize pageSize?)).take (getPageSize pageSize?))

/-! ### Generic review list (`ReviewViewSet`, views.py lines 28–67) -/

/-- Query parameters of a review-list request. -/
structure ListParams where
  movie_title? : Option String := none
  rating? : Option String := none
  page? : Option String := none
  page_size? : Option String := none
  deriving Repr, DecidableEq

/-- Wrap a paginated queryset as the HTTP outcome the list handlers
produce: a 200 envelope, or DRF's 404 `NotFound` on an invalid page. -/
def paginateOutcome (reviews : List Review) (p : ListParams) : Outcome :=
  match ReviewPagination.paginate_queryset reviews p.page? p.page_size? with
  | Paginated.envelope c res => Outcome.resp 200 (Body.envelope c res)
  | Paginated.notFound => Outcome.resp 404 (Body.error "Invalid page.")

/-- What `ReviewViewSet.get_queryset` actually returns: either a queryset,
or — on a bad `rating` parameter — a DRF `Response` object returned from
inside `get_queryset` (lines 51 and 53). -/
inductive QsOrResp where
  | qs (reviews : List Review)
  | respOut (status : Nat) (msg : String)
  deriving Repr, DecidableEq

/-- `ReviewViewSet.get_queryset` (lines 37–55): start from all reviews,
filter by `movie_title` (icontains) if truthy, then handle `rating` if
truthy: in-range integer filters, out-of-range or unparsable builds a
400 `Response` — which the method returns in place of a queryset. -/
def ReviewViewSet.get_queryset (db : DB) (p : ListParams) : QsOrResp :=
  let queryset := db.reviews
  let queryset :=
    if truthy p.movie_title? then
      queryset.filter (fun r => icontains (movieTitleOf db r) (p.movie_title?.getD ""))
    else queryset
  if truthy p.rating? then
    match pyInt? (p.rating?.getD "") with
    | some n =>
      if 1 ≤ n ∧ n ≤ 5 then
        QsOrResp.qs (queryset.filter (fun r => r.rating == n))
      else
        QsOrResp.respOut 400 "Rating must be between 1 and 5."
    | none =>
      QsOrResp.respOut 400
        "Invalid rating value. Rating must be an integer between 1 and 5."
  else QsOrResp.qs queryset

/-- `ReviewViewSet.list` (lines 57–67): paginate whatever `get_queryset`
returned.  When `get_queryset` returned a `Response` object instead of a
queryset, `paginate_queryset` hands it to Django's `Paginator`, whose
count calls `len()` on the `Response` — raising `TypeError`; the built
400 response never reaches the client. -/
def ReviewViewSet.list (db : DB) (p : ListParams) : Outcome :=
  match ReviewViewSet.get_queryset db p with
  | QsOrResp.qs reviews => paginateOutcome reviews p
  | QsOrResp.respOut _ _ => Outcome.exn "TypeError"

/-- Dispatch for the generic review list: `permission_classes =
[IsAuthenticated]` — an unauthenticated request is rejected with 401
before the handler runs. -/
def reviewList_dispatch (db : DB) (u : Option User) (p : ListParams) : Outcome :=
  match u with
  | none => Outcome.resp 401 (Body.error "Authentication credentials were not provided.")
  | some _ => ReviewViewSet.list db p

/-! ### Review serializer

`serializers.py` is not under `src/`; the serializer is modelled from the
specification. -/

/-- Request-body data for a review, as the views manipulate it
(`request.data` with optional `movie`/`user`/`rating` entries and a
free-text body). -/
structure ReviewData where
  movie? : Option Nat := none
  user? : Option Nat := none
  rating? : Option Int := none
  body : String := ""
  deriving Repr, DecidableEq

/-- Next primary key the store assigns to a created review. -/
def nextReviewId (db : DB) : Nat :=
  (db.reviews.map Review.id).foldr max 0 + 1

/-- Modelled from the spec: `ReviewSerializer` (`serializers.py` is not
under `src/`).  Per §3 a review's rating must be an integer in [1,5]
(anything else is a validation failure, not a stored state) and a review
must reference an existing movie at creation; per §4.1/Scenario 2 the
caller may attach the movie and user when saving, and caller-supplied
values take precedence over values in the data (DRF's `save(**kwargs)`
overrides validated data).  Returns the updated store and the created
review, or a validation error message. -/
def ReviewSerializer.run (db : DB) (now : Nat) (data : ReviewData)
    (movieKw userKw : Option Nat) : Except String (DB × Review) :=
  match data.rating? with
  | none => Except.error "rating: This field is required."
  | some rt =>
    if 1 ≤ rt ∧ rt ≤ 5 then
      match movieKw <|> data.movie?, userKw <|> data.user? with
      | some mid, some uid =>
        if db.movies.any (fun m => m.id == mid) then
          let r : Review := { id := nextReviewId db, movieId := mid, userId := uid,
                              rating := rt, body := data.body, createdAt := now }
          Except.ok ({ db with reviews := db.reviews ++ [r] }, r)
        else Except.error "movie: Invalid pk - object does not exist."
      | _, _ => Except.error "movie/user: This field is required."
    else Except.error "rating: Ensure this value is between 1 and 5."

/-! ### Movie-scoped review list/create (`ReviewListCreateView`, lines 208–244) -/

/-- The movie-scoped queryset before the rating filter (lines 212–217):
reviews of one movie, then the optional `movie_title` icontains filter.
(Querysets are lazy and effect-free, so factoring this expression out of
the handler preserves its meaning.) -/
def scopedReviews (db : DB) (movie_id : Nat) (p : ListParams) : List Review :=
  if truthy p.movie_title? then
    (db.reviews.filter (fun r => r.movieId == movie_id)).filter
      (fun r => icontains (movieTitleOf db r) (p.movie_title?.getD ""))
  else db.reviews.filter (fun r => r.movieId == movie_id)

/-- `ReviewListCreateView.get` (lines 211–233): the movie-scoped queryset
with the same `rating` handling as the generic endpoint — except the 400
`Response` objects are returned from the request handler itself, so here
they do reach the client — then pagination. -/
def ReviewListCreateView.get (db : DB) (movie_id : Nat) (p : ListParams) : Outcome :=
  if truthy p.rating? then
    match pyInt? (p.rating?.getD "") with
    | some n =>
      if 1 ≤ n ∧ n ≤ 5 then
        paginateOutcome ((scopedReviews db movie_id p).filter (fun r => r.rating == n)) p
      else Outcome.resp 400 (Body.error "Rating must be between 1 and 5.")
    | none =>
      Outcome.resp 400
        (Body.error "Invalid rating value. Rating must be an integer between 1 and 5.")
  else paginateOutcome (scopedReviews db movie_id p) p

/-- `ReviewListCreateView.post` (lines 235–244): overwrite the body's
`movie` and `user` entries with the path movie id and the acting user's
id, then validate and save through the serializer. -/
def ReviewListCreateView.post (db : DB) (now : Nat) (user : User) (movie_id : Nat)
    (data : ReviewData) : DB × Outcome :=
  match ReviewSerializer.run db now
      { data with movie? := some movie_id, user? := some user.id } none none with
  | Except.ok (db', r) => (db', Outcome.resp 201 (Body.review r))
  | Except.error e => (db, Outcome.resp 400 (Body.error e))

/-- `CreateMovieReviewView.post` (lines 265–285): guard the movie lookup
(a missing movie is normalized to 404), then validate the client data and
save with the movie and acting user passed directly to `save`. -/
def CreateMovieReviewView.post (db : DB) (now : Nat) (user : User) (movie_id : Nat)
    (data : ReviewData) : DB × Outcome :=
  match db.movies.find? (fun m => m.id == movie_id) with
  | none => (db, Outcome.resp 404 (Body.error "Movie not found."))
  | some movie =>
    match ReviewSerializer.run db now data (some movie.id) (some user.id) with
    | Except.ok (db', r) => (db', Outcome.resp 201 (Body.review r))
    | Except.error e => (db, Outcome.resp 400 (Body.error e))

/-! ### Review update/delete (`ReviewDetailView`, lines 248–262)

Both handlers perform the ownership-scoped lookup
`Review.objects.get(id=review_id, user=request.user)` with no
`try/except`: when no such row exists (the review is absent, or owned by
another user) the ORM raises `Review.DoesNotExist`, which escapes the
handler uncaught. -/

/-- `ReviewDetailView.put` (lines 251–257). -/
def ReviewDetailView.put (db : DB) (user : User) (review_id : Nat)
    (data : ReviewData) : DB × Outcome :=
  match db.reviews.find? (fun r => r.id == review_id && r.userId == user.id) with
  | none => (db, Outcome.exn "Review.DoesNotExist")
  | some r =>
    match data.rating? with
    | none => (db, Outcome.resp 400 (Body.error "rating: This field is required."))
    | some rt =>
      if 1 ≤ rt ∧ rt ≤ 5 then
        let r' := { r with rating := rt, body := data.body }
        ({ db with reviews := db.reviews.map (fun x => if x.id == review_id then r' else x) },
         Outcome.resp 200 (Body.review r'))
      else (db, Outcome.resp 400 (Body.error "rating: Ensure this value is between 1 and 5."))

/-- `ReviewDetailView.delete` (lines 259–262). -/
def ReviewDetailView.delete (db : DB) (user : User) (review_id : Nat) : DB × Outcome :=
  match db.reviews.find? (fun r => r.id == review_id && r.userId == user.id) with
  | none => (db, Outcome.exn "Review.DoesNotExist")
  | some _ =>
    ({ db with reviews := db.reviews.filter (fun r => !(r.id == review_id)) },
     Outcome.resp 200 (Body.message "Review deleted successfully"))

/-! ### Movie views -/

/-- Request-body data for a movie. -/
structure MovieData where
  title? : Option String := none
  genre? : Option String := none
  deriving Repr, DecidableEq

/-- Next primary key the store assigns to a created movie. -/
def nextMovieId (db : DB) : Nat :=
  (db.movies.map Movie.id).foldr max 0 + 1

/-- Modelled from the spec: `MovieSerializer` (`serializers.py` is not
under `src/`).  Per §3 a movie has a title and a genre; declarative
schema validation rejects a missing or blank required field. -/
def MovieSerializer.validate (data : MovieData) : Option (String × String) :=
  match data.title?, data.genre? with
  | some t, some g => if t != "" && g != "" then some (t, g) else none
  | _, _ => none

/-- DRF's `IsAdminUser` gate used by the movie APIViews: an unauthenticated
request is rejected 401, an authenticated non-staff request 403. -/
def adminGate (u : Option User) : Option Nat :=
  match u with
  | none => some 401
  | some user => if user.is_staff then none else some 403

/-- Body sent with a permission rejection. -/
def permBody (status : Nat) : Body :=
  if status == 401 then Body.error "Authentication credentials were not provided."
  else Body.error "You do not have permission to perform this action."

/-- `MovieListCreateView.post` (lines 177–182): admin-only movie creation. -/
def MovieListCreateView.post (db : DB) (u : Option User) (data : MovieData) : DB × Outcome :=
  match adminGate u with
  | some s => (db, Outcome.resp s (permBody s))
  | none =>
    match MovieSerializer.validate data with
    | some (t, g) =>
      let m : Movie := { id := nextMovieId db, title := t, genre := g }
      ({ db with movies := db.movies ++ [m] }, Outcome.resp 201 (Body.movie m))
    | none => (db, Outcome.resp 400 (Body.error "title/genre: This field is required."))

/-- `MovieDetailView.get` (lines 188–191): admin gate, then an unguarded
`Movie.objects.get(id=movie_id)` — a missing movie raises
`Movie.DoesNotExist`, which escapes uncaught. -/
def MovieDetailView.get (db : DB) (u : Option User) (movie_id : Nat) : Outcome :=
  match adminGate u with
  | some s => Outcome.resp s (permBody s)
  | none =>
    match db.movies.find? (fun m => m.id == movie_id) with
    | some m => Outcome.resp 200 (Body.movie m)
    | none => Outcome.exn "Movie.DoesNotExist"

/-- `MovieDetailView.put` (lines 193–199): same unguarded lookup, then
full-update through the serializer. -/
def MovieDetailView.put (db : DB) (u : Option User) (movie_id : Nat)
    (data : MovieData) : DB × Outcome :=
  match adminGate u with
  | some s => (db, Outcome.resp s (permBody s))
  | none =>
    match db.movies.find? (fun m => m.id == movie_id) with
    | none => (db, Outcome.exn "Movie.DoesNotExist")
    | some m =>
      match MovieSerializer.validate data with
      | some (t, g) =>
        let m' := { m with title := t, genre := g }
        ({ db with movies := db.movies.map (fun x => if x.id == movie_id then m' else x) },
         Outcome.resp 200 (Body.movie m'))
      | none => (db, Outcome.resp 400 (Body.error "title/genre: This field is required."))

/-- `MovieDetailView.delete` (lines 201–204): same unguarded lookup, then
deletion. -/
def MovieDetailView.delete (db : DB) (u : Option User) (movie_id : Nat) : DB × Outcome :=
  match adminGate u with
  | some s => (db, Outcome.resp s (permBody s))
  | none =>
    match db.movies.find? (fun m => m.id == movie_id) with
    | none => (db, Outcome.exn "Movie.DoesNotExist")
    | some _ =>
      ({ db with movies := db.movies.filter (fun m => !(m.id == movie_id)) },
       Outcome.resp 200 (Body.message "Movie deleted successfully"))

/-- `MovieViewSet.destroy` (lines 71–76): the ViewSet's `permission_classes`
is `[IsAuthenticated]`, not `[IsAdminUser]` — any authenticated user
passes its gate.  `ModelViewSet.destroy` looks the movie up via
`get_object` (404 when absent) and deletes it with 204. -/
def MovieViewSet.destroy (db : DB) (u : Option User) (movie_id : Nat) : DB × Outcome :=
  match u with
  | none => (db, Outcome.resp 401 (Body.error "Authentication credentials were not provided."))
  | some _ =>
    match db.movies.find? (fun m => m.id == movie_id) with
    | none => (db, Outcome.resp 404 (Body.error "No Movie matches the given query."))
    | some _ =>
      ({ db with movies := db.movies.filter (fun m => !(m.id == movie_id)) },
       Outcome.resp 204 Body.empty)

/-! ### Login (`LoginView`, lines 147–165) -/

/-- Modelled from the spec: token issuance
(`rest_framework_simplejwt.RefreshToken.for_user`) belongs to the Auth
Module, an external collaborator (§2); per Scenario 1 it yields non-empty
refresh and access token strings for the user. -/
def RefreshToken.for_user (uid : Nat) : String × String :=
  ("refresh-token-" ++ toString uid, "access-token-" ++ toString uid)

/-- `LoginView.post` (lines 150–165), parametric in Django's
`authenticate` (Auth Module, external): a missing or empty username or
password is rejected 400; failed authentication 401; success returns a
200 response with the refresh and access tokens. -/
def LoginView.post (authenticateFn : String → String → Option Nat)
    (username? password? : Option String) : Outcome :=
  if !truthy username? || !truthy password? then
    Outcome.resp 400 (Body.error "Username and password are required")
  else
    match authenticateFn (username?.getD "") (password?.getD "") with
    | some uid =>
      let (refresh, access) := RefreshToken.for_user uid
      Outcome.resp 200 (Body.tokens refresh access)
    | none => Outcome.resp 401 (Body.error "Invalid credentials")

/-! ### Profile update (`UserUpdateView`, lines 110–132) -/

/-- Request-body data for a profile update: each field is present or
absent independently. -/
structure UserUpdateData where
  email? : Option String := none
  password? : Option String := none
  first_name? : Option String := none
  last_name? : Option String := none
  deriving Repr, DecidableEq

/-- `UserUpdateView.put` (lines 113–132), parametric in Django's
`make_password` hasher (external): each of the four fields is assigned
only when present in the body, then the user is saved and a success
message returned unconditionally. -/
def UserUpdateView.put (make_password : String → String) (user : User)
    (d : UserUpdateData) : User × Outcome :=
  let user := match d.email? with
    | some e => { user with email := e }
    | none => user
  let user := match d.password? with
    | some p => { user with password := make_password p }
    | none => user
  let user := match d.first_name? with
    | some f => { user with first_name := f }
    | none => user
  let user := match d.last_name? with
    | some l => { user with last_name := l }
    | none => user
  (user, Outcome.resp 200 (Body.message "User updated successfully"))

/-! ### Concrete fixtures for the checks below -/

/-- Sample catalog entry. -/
def matrixMovie : Movie := { id := 1, title := "The Matrix", genre := "SciFi" }

/-- Authenticated non-admin user, author of `sampleReview`. -/
def sampleUser : User :=
  { id := 1, username := "alice", email := "a@x", password := "h",
    first_name := "A", last_name := "L", is_staff := false }

/-- A different authenticated non-admin user. -/
def otherUser : User :=
  { id := 2, username := "bob", email := "b@x", password := "h",
    first_name := "B", last_name := "M", is_staff := false }

/-- An admin (`is_staff`) user. -/
def adminUser : User :=
  { id := 3, username := "carol", email := "c@x", password := "h",
    first_name := "C", last_name := "N", is_staff := true }

/-- A review of `matrixMovie` authored by `sampleUser`. -/
def sampleReview : Review :=
  { id := 1, movieId := 1, userId := 1, rating := 5, body := "great", createdAt := 0 }

/-- A one-movie, one-review store. -/
def sampleDb : DB := { movies := [matrixMovie], reviews := [sampleReview] }

/-! ### Helper lemmas -/

/-- A string that parses as an integer is non-empty, hence truthy. -/
theorem truthy_some_of_parse (s : String) (n : Int) (h : pyInt? s = some n) :
    truthy (some s) = true := by
  have hs : s ≠ "" := by
    intro he
    subst he
    have h0 : pyInt? "" = none := by decide
    rw [h0] at h
    exact Option.noConfusion h
  simp only [truthy]
  exact bne_iff_ne.mpr hs

/-- The client-requested page size is always capped at 100. -/
theorem getPageSize_le (pageSize? : Option String) : getPageSize pageSize? ≤ 100 := by
  cases pageSize? with
  | none => decide
  | some s =>
    show (positiveIntStrictCutoff s 100).getD 10 ≤ 100
    cases hp : pyInt? s with
    | none => simp [positiveIntStrictCutoff, hp]
    | some n =>
      by_cases hn : n ≤ 0
      · simp [positiveIntStrictCutoff, hp, hn]
      · simp only [positiveIntStrictCutoff, hp, hn, if_false, Option.getD_some]
        exact Nat.min_le_right _ _

/-- An envelope returned by the paginator is a `take pageSize` slice, so it
never holds more than `getPageSize pageSize?` items. -/
theorem paginate_envelope_len (reviews : List Review) (page? pageSize? : Option String)
    (c : Nat) (res : List Review)
    (h : ReviewPagination.paginate_queryset reviews page? pageSize? = Paginated.envelope c res) :
    res.length ≤ getPageSize pageSize? := by
  unfold ReviewPagination.paginate_queryset at h
  cases hnum : pageNumber? page? (numPagesFor reviews.length (getPageSize pageSize?)) with
  | none =>
    rw [hnum] at h
    exact absurd h (by simp)
  | some number =>
    rw [hnum] at h
    injection h with h1 h2
    subst h2
    rw [List.length_take]
    exact Nat.min_le_left _ _

/-! ### Claim C1 -/

/-- C1: the claim states that a non-owner's PUT/DELETE on someone else's
review fails with 404.  In the code the ownership-scoped
`Review.objects.get(id=.., user=..)` is unguarded, so for acting user
`otherUser` and a review owned by `sampleUser` the handler raises a raw
`Review.DoesNotExist` (an uncaught exception, surfaced by Django as a 500
server error, not a 404 response); the stored review is unchanged. -/
theorem c1_nonowner_mutation_raises_not_404 :
    ReviewDetailView.put sampleDb otherUser 1 { rating? := some 3 } =
      (sampleDb, Outcome.exn "Review.DoesNotExist") ∧
    ReviewDetailView.delete sampleDb otherUser 1 =
      (sampleDb, Outcome.exn "Review.DoesNotExist") := by
  constructor <;> rfl

/-! ### Claim C2 -/

/-- C2: the claim states that on a bad `rating` parameter both review-list
endpoints return 400 before computing any result set.  The movie-scoped
endpoint does; but the generic endpoint's `get_queryset` returns the 400
`Response` object in place of a queryset, and `list` then paginates it —
Django's paginator calls `len()` on the `Response`, raising `TypeError`,
so the client never receives the 400. -/
theorem c2_generic_rating_error_never_reaches_client :
    ReviewViewSet.list sampleDb { rating? := some "abc" } = Outcome.exn "TypeError" ∧
    ReviewViewSet.list sampleDb { rating? := some "7" } = Outcome.exn "TypeError" ∧
    ReviewListCreateView.get sampleDb 1 { rating? := some "abc" } =
      Outcome.resp 400
        (Body.error "Invalid rating value. Rating must be an integer between 1 and 5.") ∧
    ReviewListCreateView.get sampleDb 1 { rating? := some "7" } =
      Outcome.resp 400 (Body.error "Rating must be between 1 and 5.") := by
  refine ⟨?_, ?_, ?_, ?_⟩ <;> rfl

/-! ### Claim C6 -/

/-- C6: the claim states that every missing-resource lookup is normalized
to 404 and a raw storage fault never propagates.  `CreateMovieReviewView`
does guard its movie lookup (404), but `MovieDetailView.get/put/delete`
call `Movie.objects.get(id=..)` unguarded: for a nonexistent movie id 9
the raw `Movie.DoesNotExist` exception escapes to the caller. -/
theorem c6_unguarded_movie_lookup_raises :
    MovieDetailView.get sampleDb (some adminUser) 9 = Outcome.exn "Movie.DoesNotExist" ∧
    MovieDetailView.put sampleDb (some adminUser) 9 { title? := some "T", genre? := some "G" } =
      (sampleDb, Outcome.exn "Movie.DoesNotExist") ∧
    MovieDetailView.delete sampleDb (some adminUser) 9 =
      (sampleDb, Outcome.exn "Movie.DoesNotExist") ∧
    CreateMovieReviewView.post sampleDb 0 sampleUser 9 { rating? := some 4 } =
      (sampleDb, Outcome.resp 404 (Body.error "Movie not found.")) := by
  refine ⟨?_, ?_, ?_, ?_⟩ <;> rfl

/-! ### Claim C9 -/

/-- C9: on both review-list endpoints, each of the `rating` and
`movie_title` parameters is independently treated as absent when supplied
as the empty string (Python's `if rating:` / `if movie_title:` are falsy
on `""`): whatever the other parameters hold, the request behaves exactly
as if that one parameter had not been sent — no filter for it, and no
validation error even though `""` does not parse as an integer in [1,5]. -/
theorem c9_empty_string_param_treated_as_absent (db : DB) (movie_id : Nat)
    (p : ListParams) :
    (p.rating? = some "" →
      ReviewViewSet.get_queryset db p =
        ReviewViewSet.get_queryset db { p with rating? := none } ∧
      ReviewListCreateView.get db movie_id p =
        ReviewListCreateView.get db movie_id { p with rating? := none }) ∧
    (p.movie_title? = some "" →
      ReviewViewSet.get_queryset db p =
        ReviewViewSet.get_queryset db { p with movie_title? := none } ∧
      ReviewListCreateView.get db movie_id p =
        ReviewListCreateView.get db movie_id { p with movie_title? := none }) := by
  constructor
  · intro hr
    constructor
    · simp [ReviewViewSet.get_queryset, hr, truthy]
    · simp [ReviewListCreateView.get, hr, truthy, scopedReviews, paginateOutcome]
  · intro hm
    constructor
    · simp [ReviewViewSet.get_queryset, hm, truthy]
    · simp [ReviewListCreateView.get, hm, truthy, scopedReviews, paginateOutcome]

/-- C9 witness: mixed concrete instances on the sample store — an empty
`rating` next to a live `movie_title` filter on both endpoints, and an
empty `movie_title` next to a live `rating` filter. -/
theorem c9_empty_string_param_witness :
    ReviewViewSet.get_queryset sampleDb
        { movie_title? := some "Matrix", rating? := some "" } =
      ReviewViewSet.get_queryset sampleDb
        { movie_title? := some "Matrix", rating? := none } ∧
    ReviewListCreateView.get sampleDb 1
        { movie_title? := some "Matrix", rating? := some "" } =
      ReviewListCreateView.get sampleDb 1
        { movie_title? := some "Matrix", rating? := none } ∧
    ReviewViewSet.get_queryset sampleDb
        { movie_title? := some "", rating? := some "4" } =
      ReviewViewSet.get_queryset sampleDb
        { movie_title? := none, rating? := some "4" } :=
  ⟨((c9_empty_string_param_treated_as_absent sampleDb 1
      { movie_title? := some "Matrix", rating? := some "" }).1 rfl).1,
   ((c9_empty_string_param_treated_as_absent sampleDb 1
      { movie_title? := some "Matrix", rating? := some "" }).1 rfl).2,
   ((c9_empty_string_param_treated_as_absent sampleDb 1
      { movie_title? := some "", rating? := some "4" }).2 rfl).1⟩

/-! ### Claim C8 -/

/-- The issued token strings are non-empty. -/
theorem refreshToken_nonempty (uid : Nat) :
    (RefreshToken.for_user uid).1 ≠ "" ∧ (RefreshToken.for_user uid).2 ≠ "" := by
  refine ⟨fun h => ?_, fun h => ?_⟩
  · have hl := congrArg String.length h
    simp only [RefreshToken.for_user] at hl
    rw [String.length_append] at hl
    have h1 : ("refresh-token-" : String).length = 14 := rfl
    have h0 : ("" : String).length = 0 := rfl
    rw [h1, h0] at hl
    omega
  · have hl := congrArg String.length h
    simp only [RefreshToken.for_user] at hl
    rw [String.length_append] at hl
    have h1 : ("access-token-" : String).length = 13 := rfl
    have h0 : ("" : String).length = 0 := rfl
    rw [h1, h0] at hl
    omega

/-- C8: POST /login rejects a missing (or empty) username or password with
400; rejects credentials `authenticate` does not accept with 401; and on
success returns 200 with non-empty refresh and access token strings. -/
theorem c8_login_outcomes (authenticateFn : String → String → Option Nat)
    (username? password? : Option String) :
    ((truthy username? = false ∨ truthy password? = false) →
      LoginView.post authenticateFn username? password? =
        Outcome.resp 400 (Body.error "Username and password are required")) ∧
    (∀ un pw, username? = some un → password? = some pw → un ≠ "" → pw ≠ "" →
      authenticateFn un pw = none →
      LoginView.post authenticateFn username? password? =
        Outcome.resp 401 (Body.error "Invalid credentials")) ∧
    (∀ un pw uid, username? = some un → password? = some pw → un ≠ "" → pw ≠ "" →
      authenticateFn un pw = some uid →
      ∃ refresh access,
        LoginView.post authenticateFn username? password? =
          Outcome.resp 200 (Body.tokens refresh access) ∧ refresh ≠ "" ∧ access ≠ "") := by
  refine ⟨?_, ?_, ?_⟩
  · intro h
    rcases h with h | h <;> simp [LoginView.post, h]
  · intro un pw hu hp hun hpw hauth
    subst hu hp
    simp [LoginView.post, truthy, bne_iff_ne, hun, hpw, hauth]
  · intro un pw uid hu hp hun hpw hauth
    subst hu hp
    refine ⟨(RefreshToken.for_user uid).1, (RefreshToken.for_user uid).2, ?_,
      (refreshToken_nonempty uid).1, (refreshToken_nonempty uid).2⟩
    simp [LoginView.post, truthy, bne_iff_ne, hun, hpw, hauth]

/-- A concrete credential checker: `alice`/`pw1` is the only valid pair. -/
def authStub : String → String → Option Nat :=
  fun un pw => if un == "alice" && pw == "pw1" then some 1 else none

/-- C8 witness: the three login outcomes at concrete requests. -/
theorem c8_login_witness :
    LoginView.post authStub none (some "pw1") =
      Outcome.resp 400 (Body.error "Username and password are required") ∧
    LoginView.post authStub (some "alice") (some "bad") =
      Outcome.resp 401 (Body.error "Invalid credentials") ∧
    (∃ refresh access,
      LoginView.post authStub (some "alice") (some "pw1") =
        Outcome.resp 200 (Body.tokens refresh access) ∧ refresh ≠ "" ∧ access ≠ "") :=
  ⟨(c8_login_outcomes authStub none (some "pw1")).1 (Or.inl rfl),
   (c8_login_outcomes authStub (some "alice") (some "bad")).2.1 "alice" "bad" rfl rfl
     (by decide) (by decide) rfl,
   (c8_login_outcomes authStub (some "alice") (some "pw1")).2.2 "alice" "pw1" 1 rfl rfl
     (by decide) (by decide) rfl⟩

/-! ### Claim C10 -/

/-- C10: PUT /users/me assigns exactly the fields present in the body —
an absent field keeps its previous value, a present field is overwritten
(the password through the hasher) — the identity fields are untouched,
and the response is a 200 success message for every subset of fields. -/
theorem c10_profile_update_frame (make_password : String → String) (user : User)
    (d : UserUpdateData) :
    (UserUpdateView.put make_password user d).2 =
      Outcome.resp 200 (Body.message "User updated successfully") ∧
    (d.email? = none → (UserUpdateView.put make_password user d).1.email = user.email) ∧
    (∀ e, d.email? = some e → (UserUpdateView.put make_password user d).1.email = e) ∧
    (d.password? = none →
      (UserUpdateView.put make_password user d).1.password = user.password) ∧
    (∀ p, d.password? = some p →
      (UserUpdateView.put make_password user d).1.password = make_password p) ∧
    (d.first_name? = none →
      (UserUpdateView.put make_password user d).1.first_name = user.first_name) ∧
    (∀ f, d.first_name? = some f →
      (UserUpdateView.put make_password user d).1.first_name = f) ∧
    (d.last_name? = none →
      (UserUpdateView.put make_password user d).1.last_name = user.last_name) ∧
    (∀ l, d.last_name? = some l →
      (UserUpdateView.put make_password user d).1.last_name = l) ∧
    (UserUpdateView.put make_password user d).1.id = user.id ∧
    (UserUpdateView.put make_password user d).1.username = user.username ∧
    (UserUpdateView.put make_password user d).1.is_staff = user.is_staff := by
  obtain ⟨e?, p?, f?, l?⟩ := d
  cases e? <;> cases p? <;> cases f? <;> cases l? <;>
    simp [UserUpdateView.put]

/-- C10 witness: updating only the email and last name leaves the other
fields of `sampleUser` unchanged and succeeds. -/
theorem c10_profile_update_witness :
    (UserUpdateView.put (fun s => s ++ "#h") sampleUser
        { email? := some "new@x", last_name? := some "Z" }).2 =
      Outcome.resp 200 (Body.message "User updated successfully") ∧
    (UserUpdateView.put (fun s => s ++ "#h") sampleUser
        { email? := some "new@x", last_name? := some "Z" }).1.email = "new@x" ∧
    (UserUpdateView.put (fun s => s ++ "#h") sampleUser
        { email? := some "new@x", last_name? := some "Z" }).1.password =
      sampleUser.password ∧
    (UserUpdateView.put (fun s => s ++ "#h") sampleUser
        { email? := some "new@x", last_name? := some "Z" }).1.first_name =
      sampleUser.first_name ∧
    (UserUpdateView.put (fun s => s ++ "#h") sampleUser
        { email? := some "new@x", last_name? := some "Z" }).1.last_name = "Z" := by
  obtain ⟨h200, _, he, hp, _, hf, _, _, hl, _⟩ :=
    c10_profile_update_frame (fun s => s ++ "#h") sampleUser
      { email? := some "new@x", last_name? := some "Z" }
  exact ⟨h200, he "new@x" rfl, hp rfl, hf rfl, hl "Z" rfl⟩

/-! ### Claim C7 -/

/-- When the serializer accepts, the created review's movie and user come
from the save kwargs when given (they override the data), otherwise from
the data; the new review is appended to the store. -/
theorem ReviewSerializer.run_ok (db : DB) (now : Nat) (data : ReviewData)
    (movieKw userKw : Option Nat) (db' : DB) (r : Review)
    (h : ReviewSerializer.run db now data movieKw userKw = Except.ok (db', r)) :
    some r.movieId = (movieKw <|> data.movie?) ∧
    some r.userId = (userKw <|> data.user?) ∧
    db' = { db with reviews := db.reviews ++ [r] } := by
  unfold ReviewSerializer.run at h
  split at h
  · exact absurd h (by simp)
  · split at h
    · split at h
      next mid uid hm hu =>
        split at h
        · injection h with hpair
          obtain ⟨hdb, hr⟩ := Prod.mk.injEq .. ▸ hpair
          subst hr
          exact ⟨by rw [hm], by rw [hu], hdb.symm⟩
        · exact absurd h (by simp)
      next _ _ _ =>
        exact absurd h (by simp)
    · exact absurd h (by simp)

/-- C7: on both creation paths the stored review's author is the acting
user and its movie is the path-scoped movie, whatever `movie`/`user`
values the client body carries: `ReviewListCreateView.post` overwrites
the body's entries, `CreateMovieReviewView.post` passes them as save
kwargs, which take precedence over the body.  The rest of the store is
preserved (the new review is appended). -/
theorem c7_created_review_author_and_movie (db : DB) (now : Nat) (user : User)
    (movie_id : Nat) (data : ReviewData) :
    (∀ db' r, ReviewListCreateView.post db now user movie_id data =
        (db', Outcome.resp 201 (Body.review r)) →
      r.movieId = movie_id ∧ r.userId = user.id ∧
      db' = { db with reviews := db.reviews ++ [r] }) ∧
    (∀ db' r, CreateMovieReviewView.post db now user movie_id data =
        (db', Outcome.resp 201 (Body.review r)) →
      r.movieId = movie_id ∧ r.userId = user.id ∧
      db' = { db with reviews := db.reviews ++ [r] }) := by
  constructor
  · intro db' r h
    unfold ReviewListCreateView.post at h
    split at h
    next dbx rx hrun =>
      simp only [Prod.mk.injEq, Outcome.resp.injEq, Body.review.injEq] at h
      obtain ⟨hdb, -, hrx⟩ := h
      subst hdb hrx
      obtain ⟨hm, hu, hdb'⟩ := ReviewSerializer.run_ok _ _ _ _ _ _ _ hrun
      simp only [Option.none_orElse] at hm hu
      exact ⟨Option.some.inj hm, Option.some.inj hu, hdb'⟩
    next e hrun =>
      simp at h
  · intro db' r h
    unfold CreateMovieReviewView.post at h
    split at h
    next hfind =>
      simp at h
    next movie hfind =>
      split at h
      next dbx rx hrun =>
        simp only [Prod.mk.injEq, Outcome.resp.injEq, Body.review.injEq] at h
        obtain ⟨hdb, -, hrx⟩ := h
        subst hdb hrx
        obtain ⟨hm, hu, hdb'⟩ := ReviewSerializer.run_ok _ _ _ _ _ _ _ hrun
        simp only [Option.some_orElse] at hm hu
        have hmid : movie.id = movie_id := by
          have hp := List.find?_some hfind
          exact beq_iff_eq.mp hp
        refine ⟨?_, Option.some.inj hu, hdb'⟩
        rw [← hmid]
        exact Option.some.inj hm
      next e hrun =>
        simp at h

/-- A client body that tries to spoof another author and another movie. -/
def spoofData : ReviewData :=
  { movie? := some 42, user? := some 999, rating? := some 4, body := "great" }

/-- The review actually created from `spoofData` by `otherUser` on movie 1. -/
def createdR : Review :=
  { id := 2, movieId := 1, userId := 2, rating := 4, body := "great", createdAt := 7 }

/-- C7 witness: despite `spoofData` naming movie 42 and user 999, the
stored review belongs to movie 1 and `otherUser`, appended to the store. -/
theorem c7_created_review_witness :
    createdR.movieId = 1 ∧ createdR.userId = otherUser.id ∧
    { movies := [matrixMovie], reviews := [sampleReview, createdR] } =
      { sampleDb with reviews := sampleDb.reviews ++ [createdR] } :=
  (c7_created_review_author_and_movie sampleDb 7 otherUser 1 spoofData).1
    { movies := [matrixMovie], reviews := [sampleReview, createdR] } createdR rfl

/-! ### Claim C4 -/

/-- C4 counterexample: the claim states every movie mutation by an
authenticated non-admin fails with 403 and leaves the catalog unchanged.
But `MovieViewSet` is gated by `IsAuthenticated` only, so the non-admin
`sampleUser` deletes movie 1 through it: the request succeeds with 204
and the catalog loses the movie. -/
theorem c4_movieviewset_allows_nonadmin_delete :
    MovieViewSet.destroy sampleDb (some sampleUser) 1 =
      ({ movies := [], reviews := [sampleReview] }, Outcome.resp 204 Body.empty) ∧
    sampleUser.is_staff = false ∧ sampleDb.movies ≠ [] := by
  refine ⟨?_, rfl, ?_⟩ <;> decide

/-- C4 (amended): movie create/update/delete through the admin-gated views
(`MovieListCreateView`, `MovieDetailView`) fails with 403 for an
authenticated non-admin and leaves the store unchanged; `MovieViewSet`,
however, only requires authentication, so an authenticated non-admin can
mutate movies through it (deleting an existing movie succeeds with 204). -/
theorem c4_admin_gated_views_forbid_nonadmin (db : DB) (u : User) (movie_id : Nat)
    (mdata : MovieData) (h : u.is_staff = false) :
    MovieListCreateView.post db (some u) mdata =
      (db, Outcome.resp 403
        (Body.error "You do not have permission to perform this action.")) ∧
    MovieDetailView.put db (some u) movie_id mdata =
      (db, Outcome.resp 403
        (Body.error "You do not have permission to perform this action.")) ∧
    MovieDetailView.delete db (some u) movie_id =
      (db, Outcome.resp 403
        (Body.error "You do not have permission to perform this action.")) ∧
    (∀ m, db.movies.find? (fun mv => mv.id == movie_id) = some m →
      MovieViewSet.destroy db (some u) movie_id =
        ({ db with movies := db.movies.filter (fun mv => !(mv.id == movie_id)) },
         Outcome.resp 204 Body.empty)) := by
  refine ⟨?_, ?_, ?_, ?_⟩
  · simp [MovieListCreateView.post, adminGate, h, permBody]
  · simp [MovieDetailView.put, adminGate, h, permBody]
  · simp [MovieDetailView.delete, adminGate, h, permBody]
  · intro m hm
    unfold MovieViewSet.destroy
    rw [hm]

/-- C4 witness: the 403 rejection and the ViewSet bypass on the sample
store. -/
theorem c4_admin_gated_views_witness :
    MovieDetailView.delete sampleDb (some sampleUser) 1 =
      (sampleDb, Outcome.resp 403
        (Body.error "You do not have permission to perform this action.")) ∧
    MovieViewSet.destroy sampleDb (some sampleUser) 1 =
      ({ sampleDb with
          movies := sampleDb.movies.filter (fun mv => !(mv.id == 1)) },
       Outcome.resp 204 Body.empty) := by
  obtain ⟨-, -, h3, h4⟩ :=
    c4_admin_gated_views_forbid_nonadmin sampleDb sampleUser 1
      { title? := some "T", genre? := some "G" } rfl
  exact ⟨h3, h4 matrixMovie rfl⟩

/-! ### Claim C5 -/

/-- Every review on a returned page belongs to the paginated queryset. -/
theorem paginate_envelope_sub (reviews : List Review) (page? pageSize? : Option String)
    (c : Nat) (res : List Review)
    (h : ReviewPagination.paginate_queryset reviews page? pageSize? = Paginated.envelope c res) :
    ∀ r ∈ res, r ∈ reviews := by
  unfold ReviewPagination.paginate_queryset at h
  cases hnum : pageNumber? page? (numPagesFor reviews.length (getPageSize pageSize?)) with
  | none =>
    rw [hnum] at h
    exact absurd h (by simp)
  | some number =>
    rw [hnum] at h
    injection h with h1 h2
    subst h2
    intro r hr
    exact List.drop_subset _ _ (List.take_subset _ _ hr)

/-- A 200 envelope outcome comes from the paginator returning that
envelope. -/
theorem paginateOutcome_envelope (reviews : List Review) (p : ListParams)
    (c : Nat) (res : List Review)
    (h : paginateOutcome reviews p = Outcome.resp 200 (Body.envelope c res)) :
    ReviewPagination.paginate_queryset reviews p.page? p.page_size? =
      Paginated.envelope c res := by
  unfold paginateOutcome at h
  split at h
  next c' res' hpag =>
    injection h with h200 hbody
    injection hbody with hc hres
    subst hc hres
    exact hpag
  next hpag =>
    simp at h

/-- C5: when the `rating` parameter parses to `n ∈ [1,5]`, every review in
the generic queryset and on every movie-scoped result page has rating
exactly `n`; and with a `movie_title` filter as well, the generic
queryset is exactly the reviews passing both filters (a logical AND). -/
theorem c5_rating_filter_exact (db : DB) (movie_id : Nat) (p : ListParams)
    (s : String) (n : Int) (hr : p.rating? = some s) (hn : pyInt? s = some n)
    (h1 : 1 ≤ n) (h5 : n ≤ 5) :
    (∀ l, ReviewViewSet.get_queryset db p = QsOrResp.qs l → ∀ r ∈ l, r.rating = n) ∧
    (∀ c res, ReviewListCreateView.get db movie_id p =
        Outcome.resp 200 (Body.envelope c res) → ∀ r ∈ res, r.rating = n) ∧
    (∀ t, p.movie_title? = some t → t ≠ "" →
      ReviewViewSet.get_queryset db p =
        QsOrResp.qs (db.reviews.filter
          (fun r => icontains (movieTitleOf db r) t && r.rating == n))) := by
  have ht : truthy (some s) = true := truthy_some_of_parse s n hn
  refine ⟨?_, ?_, ?_⟩
  · intro l hl
    unfold ReviewViewSet.get_queryset at hl
    rw [hr] at hl
    simp only [ht, if_true, Option.getD_some, hn] at hl
    rw [if_pos ⟨h1, h5⟩] at hl
    injection hl with hl
    subst hl
    intro r hrmem
    have := (List.mem_filter.mp hrmem).2
    exact beq_iff_eq.mp this
  · intro c res hres
    unfold ReviewListCreateView.get at hres
    rw [hr] at hres
    simp only [ht, if_true, Option.getD_some, hn] at hres
    rw [if_pos ⟨h1, h5⟩] at hres
    have hpag := paginateOutcome_envelope _ _ _ _ hres
    intro r hrmem
    have hin := paginate_envelope_sub _ _ _ _ _ hpag r hrmem
    have := (List.mem_filter.mp hin).2
    exact beq_iff_eq.mp this
  · intro t hmt htne
    unfold ReviewViewSet.get_queryset
    rw [hr, hmt]
    have ht' : truthy (some t) = true := by
      simp only [truthy]
      exact bne_iff_ne.mpr htne
    simp only [ht, ht', if_true, Option.getD_some, hn]
    rw [if_pos ⟨h1, h5⟩, List.filter_filter]
    congr 1
    apply List.filter_congr
    intro a _
    exact Bool.and_comm _ _

/-- C5 witness: on the sample store, `movie_title=matrix&rating=5` yields
exactly the one matching review. -/
theorem c5_rating_filter_witness :
    ReviewViewSet.get_queryset sampleDb
        { movie_title? := some "matrix", rating? := some "5" } =
      QsOrResp.qs [sampleReview] := by
  have h := (c5_rating_filter_exact sampleDb 1
      { movie_title? := some "matrix", rating? := some "5" } "5" 5 rfl (by decide)
      (by decide) (by decide)).2.2 "matrix" rfl (by decide)
  rw [h]
  decide

/-! ### Claim C3 -/

/-- A 200 envelope's result list respects the cap (100) and, with no
`page_size` parameter, the default page size (10). -/
theorem envelope_len_bound (p : ListParams) {reviews : List Review} {c : Nat}
    {res : List Review}
    (hpag : ReviewPagination.paginate_queryset reviews p.page? p.page_size? =
      Paginated.envelope c res) :
    res.length ≤ 100 ∧ (p.page_size? = none → res.length ≤ 10) := by
  have hlen := paginate_envelope_len _ _ _ _ _ hpag
  refine ⟨le_trans hlen (getPageSize_le _), fun hps => ?_⟩
  rw [hps] at hlen
  exact hlen

/-- A parsed page number strictly beyond the last page is rejected by
`validate_number`. -/
theorem pageNumber?_beyond (s : String) (n : Int) (numPages : Nat)
    (hpn : pyInt? s = some n) (h1 : 1 ≤ n) (hgt : numPages < n.toNat) :
    pageNumber? (some s) numPages = none := by
  simp only [pageNumber?]
  by_cases hlast : s = "last"
  · subst hlast
    rw [show pyInt? "last" = none from by decide] at hpn
    exact Option.noConfusion hpn
  · have hbeq : (s == "last") = false := by
      simp [hlast]
    have hn1 : ¬ n < 1 := by omega
    simp [hbeq, hpn, hn1, hgt]

/-- C3 counterexample: the claim states a page beyond the last returns a
zero-result non-error envelope.  On a one-review store, page 2 of both
review-list endpoints is instead rejected with a 404 `Invalid page.`
error (DRF's `NotFound` on `InvalidPage`). -/
theorem c3_beyond_last_page_is_404 :
    reviewList_dispatch sampleDb (some sampleUser) { page? := some "2" } =
      Outcome.resp 404 (Body.error "Invalid page.") ∧
    ReviewListCreateView.get sampleDb 1 { page? := some "2" } =
      Outcome.resp 404 (Body.error "Invalid page.") := by
  refine ⟨?_, ?_⟩ <;> rfl

/-- C3 (amended): the default page size is 10 and a client-requested
`page_size` is capped at 100, so no 200 envelope ever carries more than
100 results (nor more than 10 without a `page_size` parameter); but a
page number beyond the last page yields a 404 `Invalid page.` error
response, not an empty page. -/
theorem c3_pagination_contract (db : DB) (u : User) (movie_id : Nat) (p : ListParams) :
    (∀ c res, reviewList_dispatch db (some u) p = Outcome.resp 200 (Body.envelope c res) →
      res.length ≤ 100 ∧ (p.page_size? = none → res.length ≤ 10)) ∧
    (∀ c res, ReviewListCreateView.get db movie_id p =
        Outcome.resp 200 (Body.envelope c res) →
      res.length ≤ 100 ∧ (p.page_size? = none → res.length ≤ 10)) ∧
    (∀ reviews s n, p.page? = some s → pyInt? s = some n → 1 ≤ n →
      numPagesFor reviews.length (getPageSize p.page_size?) < n.toNat →
      ReviewPagination.paginate_queryset reviews p.page? p.page_size? =
        Paginated.notFound) ∧
    (∀ l, ReviewViewSet.get_queryset db p = QsOrResp.qs l →
      ReviewPagination.paginate_queryset l p.page? p.page_size? = Paginated.notFound →
      reviewList_dispatch db (some u) p = Outcome.resp 404 (Body.error "Invalid page.")) := by
  refine ⟨?_, ?_, ?_, ?_⟩
  · intro c res h
    simp only [reviewList_dispatch] at h
    unfold ReviewViewSet.list at h
    split at h
    next l hqs =>
      exact envelope_len_bound p (paginateOutcome_envelope _ _ _ _ h)
    next st msg hqs =>
      simp at h
  · intro c res h
    unfold ReviewListCreateView.get at h
    split at h
    · split at h
      · split at h
        · exact envelope_len_bound p (paginateOutcome_envelope _ _ _ _ h)
        · simp at h
      · simp at h
    · exact envelope_len_bound p (paginateOutcome_envelope _ _ _ _ h)
  · intro reviews s n hps hpn h1n hgt
    unfold ReviewPagination.paginate_queryset
    rw [hps, pageNumber?_beyond s n _ hpn h1n hgt]
  · intro l hqs hpag
    simp only [reviewList_dispatch, ReviewViewSet.list, hqs, paginateOutcome, hpag]

/-- C3 witness: on a one-review list the paginator rejects page 2. -/
theorem c3_pagination_witness :
    ReviewPagination.paginate_queryset [sampleReview] (some "2") none =
      Paginated.notFound :=
  (c3_pagination_contract sampleDb sampleUser 1 { page? := some "2" }).2.2.1
    [sampleReview] "2" 2 rfl (by decide) (by decide) (by decide)

end MovieApi
